import Mathlib

/-!
Verification of the camera-test program (src/camera_test/src/main.rs) of the
GameEngineTests repository: a shallow embedding of its data model and of the
scene lifecycle operations (`update`, `draw`, `interact`, `is_finished`), of
the two loader-dispatch tables, and of the aggregate load-task composition.

Scalars of the vector library (glam `Vec3`, `f32`) are idealised as rationals;
overflow/rounding of IEEE floats is out of scope of the embedded claims, which
concern which components are modified and by how much.
-/

/-- Scalar type standing for the `f32` components of glam vectors. -/
abbrev Scalar : Type := ℚ

/-- Embedding of `glam::Vec3` (only construction and component access are used
by the program). -/
structure Vec3 where
  x : Scalar
  y : Scalar
  z : Scalar
deriving DecidableEq

/-- Capability interface of `game_engine::camera::Camera` as the program uses
it: `position()` / `set_position` and `target()` / `set_target`.  The boxed
trait object is embedded as a record of the two vectors. -/
structure Camera where
  position : Vec3
  target : Vec3
deriving DecidableEq

/-- Embedding of `glfw::Key` restricted to the arms the program matches on;
`Other` stands for every key caught by the `_ => {}` arms. -/
inductive Key where
  | Left
  | Right
  | Up
  | Down
  | Q
  | Other
deriving DecidableEq

/-- Embedding of `MultiInput` as the program consumes it: the set of keys
reported pressed-this-frame (`get_pressed_keys`) and the set reported held
(`get_held_keys`), each as a list of key codes. -/
structure MultiInput where
  pressed : List Key
  held : List Key

/-- Embedding of `game_engine::graphics::transform::Transform`: the program
touches only the translation vector (an atomic-f32 triple, idealised as a
`Vec3`). -/
structure Transform where
  translation : Vec3
deriving DecidableEq

/-- Opaque stand-in for the texture dictionary produced by
`TextureDictLoader`; its internals are never inspected by the program. -/
structure TextureDict where
  entries : List String
deriving DecidableEq

/-- Opaque stand-in for the sprite renderer's private state; the program only
stores it behind a lock and hands it to the external render backend
(`render_state` mirrors the field printed by the `Debug` impl). -/
structure SpriteRenderer where
  render_state : Nat
deriving DecidableEq

/-- Opaque stand-in for the luminance graphics context resource
(`game_engine::graphics::Context`); mutated only through the render backend. -/
structure GraphicsContext where
  state : Nat
deriving DecidableEq

/-- The shared `specs::World` as the program uses it: the registered
`Transform` storage, the optional boxed camera singleton, the optional texture
dictionary, and the graphics context resource. -/
structure World where
  transforms : List Transform
  camera : Option Camera
  textureDict : Option TextureDict
  context : GraphicsContext

/-- Scene state of `CameraTestScene`: its private sprite renderer and the
`should_finish` atomic flag. -/
structure CameraTestScene where
  sprite_renderer : SpriteRenderer
  should_finish : Bool

/-- Construction of `CameraTestScene` in `load_scene`'s final `map`
(main.rs:321-324): wraps the loaded renderer, flag initialised to `false`. -/
def mkCameraTestScene (renderer : SpriteRenderer) : CameraTestScene :=
  { sprite_renderer := renderer, should_finish := false }

/-- Outcome of `CameraTestScene::interact`: either the Rust `panic!` on a
missing camera, or `Ok(())` together with the new camera resource and the new
value of the `should_finish` flag. -/
inductive InteractResult where
  | panicked (msg : String)
  | ok (camera : Camera) (should_finish : Bool)
deriving DecidableEq

/-- New camera state of an `interact` outcome, `none` when it panicked. -/
def resultCamera : InteractResult → Option Camera
  | .panicked _ => none
  | .ok c _ => some c

/-- New `should_finish` flag of an `interact` outcome, `none` when it
panicked. -/
def resultFlag : InteractResult → Option Bool
  | .panicked _ => none
  | .ok _ f => some f

/-- One arm of the pressed-keys loop of `interact` (main.rs:205-233): arrow
keys move position and target by ±1 on one axis, every other key (including
`Q`) falls to the `_ => {}` arm. -/
def applyPressedKey (camera : Camera) (k : Key) : Camera :=
  match k with
  | .Left =>
      { position := Vec3.mk (camera.position.x - 1) camera.position.y camera.position.z
        target := Vec3.mk (camera.target.x - 1) camera.target.y camera.target.z }
  | .Right =>
      { position := Vec3.mk (camera.position.x + 1) camera.position.y camera.position.z
        target := Vec3.mk (camera.target.x + 1) camera.target.y camera.target.z }
  | .Up =>
      { position := Vec3.mk camera.position.x (camera.position.y - 1) camera.position.z
        target := Vec3.mk camera.target.x (camera.target.y - 1) camera.target.z }
  | .Down =>
      { position := Vec3.mk camera.position.x (camera.position.y + 1) camera.position.z
        target := Vec3.mk camera.target.x (camera.target.y + 1) camera.target.z }
  | _ => camera

/-- Intermediate state threaded through the held-keys loop of `interact`: the
camera resource plus the scene's `should_finish` flag (which the `Q` arm
stores). -/
structure HeldState where
  camera : Camera
  should_finish : Bool
deriving DecidableEq

/-- One arm of the held-keys loop of `interact` (main.rs:235-266): arrow keys
move position and target by ±3 on one axis, `Q` stores `true` into
`should_finish`, every other key falls to `_ => {}`. -/
def applyHeldKey (s : HeldState) (k : Key) : HeldState :=
  match k with
  | .Left =>
      { s with camera :=
        { position := Vec3.mk (s.camera.position.x - 3) s.camera.position.y s.camera.position.z
          target := Vec3.mk (s.camera.target.x - 3) s.camera.target.y s.camera.target.z } }
  | .Right =>
      { s with camera :=
        { position := Vec3.mk (s.camera.position.x + 3) s.camera.position.y s.camera.position.z
          target := Vec3.mk (s.camera.target.x + 3) s.camera.target.y s.camera.target.z } }
  | .Up =>
      { s with camera :=
        { position := Vec3.mk s.camera.position.x (s.camera.position.y - 3) s.camera.position.z
          target := Vec3.mk s.camera.target.x (s.camera.target.y - 3) s.camera.target.z } }
  | .Down =>
      { s with camera :=
        { position := Vec3.mk s.camera.position.x (s.camera.position.y + 3) s.camera.position.z
          target := Vec3.mk s.camera.target.x (s.camera.target.y + 3) s.camera.target.z } }
  | .Q => { s with should_finish := true }
  | .Other => s

/-- Embedding of `CameraTestScene::interact` (main.rs:199-271).  The scene's
`should_finish` flag and the world's optional camera singleton are the state
it reads and writes; if the camera is absent it panics, otherwise it folds the
pressed-keys loop and then the held-keys loop over the input and returns
`Ok(())` with the new state. -/
def CameraTestScene.interact (should_finish : Bool) (camera : Option Camera)
    (input : MultiInput) : InteractResult :=
  match camera with
  | some cam =>
      let cam1 := input.pressed.foldl applyPressedKey cam
      let s2 := input.held.foldl applyHeldKey (HeldState.mk cam1 should_finish)
      .ok s2.camera s2.should_finish
  | none => .panicked "Camera does not exist."

/-- Modelled from the spec: the `SceneTransition` signal of
`game_engine::scenes::scene_stack` is not under src/; §3 of the spec lists its
variants as no transition, push, pop, replace, or terminate. -/
inductive SceneTransition where
  | NONE
  | PUSH
  | POP
  | REPLACE
  | TERMINATE
deriving DecidableEq

/-- Embedding of `CameraTestScene::update` (main.rs:149-158): for every
registered `Transform`, stores `translation[0] + 1.0` back into
`translation[0]` (relaxed read-then-store), then returns
`Ok(SceneTransition::NONE)`. -/
def CameraTestScene.update (w : World) : Except String (SceneTransition × World) :=
  .ok (SceneTransition.NONE,
    { w with transforms := w.transforms.map (fun t =>
        { t with translation := { t.translation with x := t.translation.x + 1 } }) })

/-- Embedding of `CameraTestScene::draw` (main.rs:160-197).  The external
render backend (the luminance pipeline gate together with
`SpriteRenderer::render`) is a parameter: it receives the scene's private
renderer, the graphics-context resource, and read-only access to the world,
and yields the new renderer and context states.  `draw` stores those back and
touches nothing else. -/
def CameraTestScene.draw
    (backend : SpriteRenderer → GraphicsContext → World → SpriteRenderer × GraphicsContext)
    (s : CameraTestScene) (w : World) : CameraTestScene × World :=
  let p := backend s.sprite_renderer w.context w
  ({ s with sprite_renderer := p.1 }, { w with context := p.2 })

/-- Embedding of `CameraTestScene::is_finished` (main.rs:277-279): returns
`Ok` of the current `should_finish` flag (acquire load). -/
def CameraTestScene.is_finished (s : CameraTestScene) (_w : World) : Except String Bool :=
  .ok s.should_finish

/-- One lifecycle call the external frame driver can make on the scene.  The
`draw` variant carries the external render backend it is driven with. -/
inductive FrameOp where
  | update
  | draw (backend : SpriteRenderer → GraphicsContext → World → SpriteRenderer × GraphicsContext)
  | interact (input : MultiInput)
  | isFinished

/-- Whether a lifecycle call is an `interact` whose input reports the quit key
`Q` as held — the one event that stores the terminate flag. -/
def opSetsQuit : FrameOp → Bool
  | .interact input => input.held.contains Key.Q
  | _ => false

/-- One step of the scene lifecycle: runs a lifecycle call against the scene
state and the world, `none` when the call panicked (missing camera). -/
def stepOp : FrameOp → CameraTestScene → World → Option (CameraTestScene × World)
  | .update, s, w =>
      match CameraTestScene.update w with
      | .ok (_, w') => some (s, w')
      | .error _ => none
  | .draw backend, s, w => some (CameraTestScene.draw backend s w)
  | .interact input, s, w =>
      match CameraTestScene.interact s.should_finish w.camera input with
      | .ok cam' fin' =>
          some ({ s with should_finish := fin' }, { w with camera := some cam' })
      | .panicked _ => none
  | .isFinished, s, w => some (s, w)

/-- Runs a sequence of lifecycle calls, `none` as soon as one panics. -/
def runOps : List FrameOp → CameraTestScene → World → Option (CameraTestScene × World)
  | [], s, w => some (s, w)
  | op :: ops, s, w =>
      match stepOp op s w with
      | some (s', w') => runOps ops s' w'
      | none => none

/-- The `CAMERA_TEST_SCENE_ID` constant (main.rs:38). -/
def CAMERA_TEST_SCENE_ID : String := "camera_test_scene"

/-- Opaque stand-in for a `serde_json::Value` payload. -/
structure JSONValue where
  raw : String
deriving DecidableEq

/-- Embedding of `game_engine::load::JSONLoad`, the load descriptor: a type
identifier plus an opaque payload. -/
structure JSONLoad where
  load_type_id : String
  actual_value : JSONValue

/-- The deserialized configuration of the camera-test scene loader
(main.rs:282-285). -/
structure CameraTestSceneJSON where
  entity_paths : List String

/-- A constructed scene loader, as `scene_factory` produces it: the only
registered scene loader is `CameraTestSceneLoader`. -/
inductive SceneLoaderBox where
  | cameraTestSceneLoader (json : CameraTestSceneJSON)

/-- Embedding of `TestGameWrapper::scene_factory` (main.rs:60-66), the scene
dispatch table.  The serde deserialization `from_value` is external and passed
as a parameter; an identifier other than `CAMERA_TEST_SCENE_ID` is an error
and no loader is constructed. -/
def scene_factory (from_value : JSONValue → Except String CameraTestSceneJSON)
    (json : JSONLoad) : Except String SceneLoaderBox :=
  if json.load_type_id = CAMERA_TEST_SCENE_ID then
    (from_value json.actual_value).map (fun j => SceneLoaderBox.cameraTestSceneLoader j)
  else
    .error "Load ID did not match any scene ID"

/-- Modelled from the spec: the constant `TEXTURE_LOAD_ID` is defined in the
external `game_engine::graphics::texture` module, not under src/; its concrete
value is immaterial to every claim proved here. -/
def TEXTURE_LOAD_ID : String := "texture"

/-- Modelled from the spec: the constant `TRANSFORM_LOAD_ID` is defined in the
external `game_engine::graphics::transform` module, not under src/; its
concrete value is immaterial to every claim proved here. -/
def TRANSFORM_LOAD_ID : String := "transform"

/-- A constructed component loader, as `map_json_to_loader` produces it. -/
inductive ComponentLoaderBox where
  | textureLoader
  | transformLoader

/-- Embedding of `CameraTestSceneLoader::map_json_to_loader` (main.rs:300-308),
the entity-component dispatch table.  The two `from_json` constructors are
external and passed as parameters (they may fail on a malformed payload); an
identifier other than the texture or transform id is an error and no loader is
constructed. -/
def map_json_to_loader
    (texture_from_json : JSONLoad → Except String ComponentLoaderBox)
    (transform_from_json : JSONLoad → Except String ComponentLoaderBox)
    (json : JSONLoad) : Except String ComponentLoaderBox :=
  if json.load_type_id = TEXTURE_LOAD_ID then
    texture_from_json json
  else if json.load_type_id = TRANSFORM_LOAD_ID then
    transform_from_json json
  else
    .error "Invalid json load ID"

/-- Opaque stand-in for the `SceneStack` produced by the scene-stack loader. -/
structure SceneStack where
  depth : Nat

/-- Modelled from the spec: `game_engine::loading::Task` is not under src/
(the program names its instantiation `GenTask`).
Per §4.1 a Task is a deferred computation against the shared world that runs
exactly once when driven; driving it either fails or yields a value together
with the world as mutated by its steps. -/
abbrev GenTask (α : Type) : Type :=
  World → Except String (α × World)

/-- Modelled from the spec: `Task::map` (§4.1) runs the inner task, then
applies `f` to its result and the context; `f` may mutate the context and may
fail, in which case the composite fails and no further step runs. -/
def GenTask.map {α β : Type} (t : GenTask α) (f : α → World → Except String (β × World)) : GenTask β :=
  fun w =>
    match t w with
    | .ok (a, w1) => f a w1
    | .error e => .error e

/-- Modelled from the spec: `Task::join` (§4.1) runs both inner tasks to
completion before `combine` merges their results; if either fails the join
fails.  The unspecified order between the two independent tasks is fixed here
as first-then-second. -/
def GenTask.join {α β γ : Type} (t : GenTask α) (u : GenTask β) (combine : α × β → γ) : GenTask γ :=
  fun w =>
    match t w with
    | .ok (a, w1) =>
        match u w1 with
        | .ok (b, w2) => .ok (combine (a, b), w2)
        | .error e => .error e
    | .error e => .error e

/-- Modelled from the spec: `Task::sequence` (§4.1) runs the first task,
discards its value (context mutations retained), then runs the second. -/
def GenTask.sequence {α β : Type} (t : GenTask α) (u : GenTask β) : GenTask β :=
  fun w =>
    match t w with
    | .ok (_, w1) => u w1
    | .error e => .error e

/-- Modelled from the spec: a leaf resource loader's task (§4.3) performs
I/O/deserialization and yields a domain value without touching the world; its
outcome is the `result` parameter. -/
def leafLoad {α : Type} (result : Except String α) : GenTask α :=
  fun w =>
    match result with
    | .ok a => .ok (a, w)
    | .error e => .error e

/-- Embedding of `TestGameWrapper::load` (main.rs:74-125): the
texture-dictionary leaf task, `map`-ped to insert its value into the world,
is `join`-ed (combine `|_| {}`) with the camera leaf task, `map`-ped to insert
`Some(Box::new(camera))` into the world; the join is then `sequence`-d before
the scene-stack loader's task.  The three leaf tasks are parameters: the leaf
loaders live in the external `game_engine` crate. -/
def TestGameWrapper.load (tdResult : Except String TextureDict)
    (camResult : Except String Camera) (ssTask : GenTask SceneStack) : GenTask SceneStack :=
  let td_task := (leafLoad tdResult).map (fun texture_dict ecs =>
    .ok ((), { ecs with textureDict := some texture_dict }))
  let camera_task := (leafLoad camResult).map (fun camera ecs =>
    .ok ((), { ecs with camera := some camera }))
  (td_task.join camera_task (fun _ => ())).sequence ssTask

/-- Sample camera used by witness statements. -/
def sampleCamera : Camera :=
  Camera.mk (Vec3.mk 0 0 0) (Vec3.mk 0 0 0)

/-- Sample load descriptor with an unregistered type identifier, used by
witness statements. -/
def sampleJSON : JSONLoad :=
  JSONLoad.mk "bogus" (JSONValue.mk "")

/-- Sample stand-in for the external serde deserializer, used by witness
statements. -/
def sampleFromValue : JSONValue → Except String CameraTestSceneJSON :=
  fun _ => Except.ok (CameraTestSceneJSON.mk [])

/-- Sample stand-in for an external component-loader constructor, used by
witness statements. -/
def sampleComponentFromJSON : JSONLoad → Except String ComponentLoaderBox :=
  fun _ => Except.ok ComponentLoaderBox.textureLoader

/-- The held-keys loop flips `should_finish` to `true` exactly when some held
key is `Q`, and otherwise carries the incoming flag through. -/
theorem heldFold_flag (held : List Key) (s : HeldState) :
    (held.foldl applyHeldKey s).should_finish
      = (s.should_finish || held.contains Key.Q) := by
  induction held generalizing s with
  | nil => simp
  | cons k t ih =>
      cases k <;>
        simp [List.foldl_cons, applyHeldKey, ih, List.contains_cons, Bool.or_assoc,
          beq_iff_eq]

/-- The flag produced by `interact` with the camera present is the incoming
flag OR-ed with whether a held key is `Q`. -/
theorem interact_flag (fin : Bool) (cam : Camera) (input : MultiInput) :
    resultFlag (CameraTestScene.interact fin (some cam) input)
      = some (fin || input.held.contains Key.Q) := by
  unfold CameraTestScene.interact resultFlag
  simp [heldFold_flag]

/-- Relation between a camera state before and after an operation: the
componentwise difference between position and target is unchanged, and the Z
components of position and target are individually unchanged. -/
def CameraDeltaInv (c c' : Camera) : Prop :=
  c'.position.x - c'.target.x = c.position.x - c.target.x ∧
  c'.position.y - c'.target.y = c.position.y - c.target.y ∧
  c'.position.z - c'.target.z = c.position.z - c.target.z ∧
  c'.position.z = c.position.z ∧
  c'.target.z = c.target.z

/-- `CameraDeltaInv` is reflexive. -/
theorem CameraDeltaInv.refl (c : Camera) : CameraDeltaInv c c :=
  ⟨rfl, rfl, rfl, rfl, rfl⟩

/-- `CameraDeltaInv` is transitive. -/
theorem CameraDeltaInv.trans {a b c : Camera}
    (h1 : CameraDeltaInv a b) (h2 : CameraDeltaInv b c) : CameraDeltaInv a c := by
  obtain ⟨p1, p2, p3, p4, p5⟩ := h1
  obtain ⟨q1, q2, q3, q4, q5⟩ := h2
  exact ⟨q1.trans p1, q2.trans p2, q3.trans p3, q4.trans p4, q5.trans p5⟩

/-- Every arm of the pressed-keys loop applies the same delta to position and
target and never touches the Z components. -/
theorem applyPressedKey_delta (c : Camera) (k : Key) :
    CameraDeltaInv c (applyPressedKey c k) := by
  cases k <;> simp [applyPressedKey, CameraDeltaInv]

/-- Every arm of the held-keys loop applies the same delta to position and
target and never touches the Z components. -/
theorem applyHeldKey_delta (s : HeldState) (k : Key) :
    CameraDeltaInv s.camera (applyHeldKey s k).camera := by
  cases k <;> simp [applyHeldKey, CameraDeltaInv]

/-- The whole pressed-keys loop preserves `CameraDeltaInv`. -/
theorem pressedFold_delta (l : List Key) (c : Camera) :
    CameraDeltaInv c (l.foldl applyPressedKey c) := by
  induction l generalizing c with
  | nil => exact CameraDeltaInv.refl c
  | cons k t ih =>
      exact CameraDeltaInv.trans (applyPressedKey_delta c k) (ih (applyPressedKey c k))

/-- The whole held-keys loop preserves `CameraDeltaInv`. -/
theorem heldFold_delta (l : List Key) (s : HeldState) :
    CameraDeltaInv s.camera ((l.foldl applyHeldKey s).camera) := by
  induction l generalizing s with
  | nil => exact CameraDeltaInv.refl s.camera
  | cons k t ih =>
      exact CameraDeltaInv.trans (applyHeldKey_delta s k) (ih (applyHeldKey s k))

/-- One lifecycle step leaves the flag unchanged unless the step is an
`interact` whose input holds `Q`, in which case the flag is OR-ed with `true`;
a panicking step yields no successor state. -/
theorem stepOp_flag (op : FrameOp) (s : CameraTestScene) (w : World) :
    match stepOp op s w with
    | some (s', _) => s'.should_finish = (s.should_finish || opSetsQuit op)
    | none => True := by
  cases op with
  | update => simp [stepOp, CameraTestScene.update, opSetsQuit]
  | draw backend => simp [stepOp, CameraTestScene.draw, opSetsQuit]
  | interact input =>
      cases hcam : w.camera with
      | none => simp [stepOp, CameraTestScene.interact, hcam]
      | some cam =>
          simp [stepOp, CameraTestScene.interact, hcam, opSetsQuit, heldFold_flag]
  | isFinished => simp [stepOp, opSetsQuit]

/-- Over any successful sequence of lifecycle calls, the final flag is the
initial flag OR-ed with whether some call was an `interact` holding `Q`.  In
particular the flag is monotone: once `true` it stays `true`, and it becomes
`true` only through such an `interact`. -/
theorem runOps_flag (ops : List FrameOp) (s : CameraTestScene) (w : World) :
    match runOps ops s w with
    | some (s', _) => s'.should_finish = (s.should_finish || ops.any opSetsQuit)
    | none => True := by
  induction ops generalizing s w with
  | nil => simp [runOps]
  | cons op t ih =>
      have hstep := stepOp_flag op s w
      cases hs : stepOp op s w with
      | none => simp [runOps, hs]
      | some p =>
          obtain ⟨s', w'⟩ := p
          rw [hs] at hstep
          have ht := ih s' w'
          cases hr : runOps t s' w' with
          | none => simp [runOps, hs, hr]
          | some q =>
              obtain ⟨s2, w2⟩ := q
              rw [hr] at ht
              simp only at hstep ht
              simp only [runOps, hs, hr, List.any_cons]
              simp [ht, hstep, Bool.or_assoc]

/-- Claim C1: in a frame whose input reports Right as held, `interact` moves
both the camera position and target by +3 on X, leaving Y and Z of each
unchanged; in a frame whose input reports Right only as pressed-this-frame,
it moves both by +1 on X. -/
theorem C1_right_key_deltas (fin : Bool) (cam : Camera) :
    CameraTestScene.interact fin (some cam) (MultiInput.mk [] [Key.Right])
      = InteractResult.ok
          (Camera.mk (Vec3.mk (cam.position.x + 3) cam.position.y cam.position.z)
                     (Vec3.mk (cam.target.x + 3) cam.target.y cam.target.z)) fin
  ∧ CameraTestScene.interact fin (some cam) (MultiInput.mk [Key.Right] [])
      = InteractResult.ok
          (Camera.mk (Vec3.mk (cam.position.x + 1) cam.position.y cam.position.z)
                     (Vec3.mk (cam.target.x + 1) cam.target.y cam.target.z)) fin :=
  ⟨rfl, rfl⟩

/-- Claim C2: the `should_finish` flag starts `false` at scene construction,
`is_finished` reports it, and over any successful sequence of lifecycle calls
the final flag equals the initial flag OR-ed with whether some call was an
`interact` whose input holds the quit key `Q` — so the flag is monotone (once
`true`, no sequence of `update`, `draw`, `interact`, `is_finished` calls
resets it) and becomes `true` only through such an `interact`. -/
theorem C2_is_finished_monotone :
    (∀ r, (mkCameraTestScene r).should_finish = false)
  ∧ (∀ s w, CameraTestScene.is_finished s w = Except.ok s.should_finish)
  ∧ (∀ (ops : List FrameOp) (s : CameraTestScene) (w : World),
      match runOps ops s w with
      | some (s', _) => s'.should_finish = (s.should_finish || ops.any opSetsQuit)
      | none => True) :=
  ⟨fun _ => rfl, fun _ _ => rfl, fun ops s w => runOps_flag ops s w⟩

/-- Claim C3: each of the two dispatch tables returns a descriptive error and
constructs no loader on every descriptor whose type identifier it does not
register — the scene table recognises only `CAMERA_TEST_SCENE_ID`, the
entity-component table only `TEXTURE_LOAD_ID` and `TRANSFORM_LOAD_ID`. -/
theorem C3_unknown_load_type
    (fv : JSONValue → Except String CameraTestSceneJSON)
    (tf trf : JSONLoad → Except String ComponentLoaderBox) (json : JSONLoad) :
    (json.load_type_id ≠ CAMERA_TEST_SCENE_ID →
      scene_factory fv json = Except.error "Load ID did not match any scene ID")
  ∧ (json.load_type_id ≠ TEXTURE_LOAD_ID → json.load_type_id ≠ TRANSFORM_LOAD_ID →
      map_json_to_loader tf trf json = Except.error "Invalid json load ID") := by
  constructor
  · intro h
    simp [scene_factory, h]
  · intro h1 h2
    simp [map_json_to_loader, h1, h2]

/-- Witness for C3 at an explicit unregistered descriptor. -/
theorem C3_unknown_load_type_witness :
    (sampleJSON.load_type_id ≠ CAMERA_TEST_SCENE_ID
      ∧ sampleJSON.load_type_id ≠ TEXTURE_LOAD_ID
      ∧ sampleJSON.load_type_id ≠ TRANSFORM_LOAD_ID)
  ∧ scene_factory sampleFromValue sampleJSON
      = Except.error "Load ID did not match any scene ID"
  ∧ map_json_to_loader sampleComponentFromJSON sampleComponentFromJSON sampleJSON
      = Except.error "Invalid json load ID" :=
  ⟨⟨by decide, by decide, by decide⟩,
   (C3_unknown_load_type sampleFromValue sampleComponentFromJSON
      sampleComponentFromJSON sampleJSON).1 (by decide),
   (C3_unknown_load_type sampleFromValue sampleComponentFromJSON
      sampleComponentFromJSON sampleJSON).2 (by decide) (by decide)⟩

/-- Claim C4: the aggregate load task is the texture-dictionary task (which
inserts its value into the world) joined with the camera task (likewise),
sequenced strictly before the scene-stack task — so when the leaf loads
succeed, the scene-stack task runs exactly on the world holding both the
texture dictionary and the camera. -/
theorem C4_load_composition (td : TextureDict) (cam : Camera)
    (ssTask : GenTask SceneStack) (w : World) :
    TestGameWrapper.load (Except.ok td) (Except.ok cam) ssTask w
      = ssTask { w with textureDict := some td, camera := some cam }
  ∧ ({ w with textureDict := some td, camera := some cam } : World).textureDict
      = some td
  ∧ ({ w with textureDict := some td, camera := some cam } : World).camera
      = some cam :=
  ⟨rfl, rfl, rfl⟩

/-- Claim C5: when the optional camera singleton is absent, `interact` panics
(with the message of main.rs:268) instead of returning an error; when the
camera is present, the panic branch is unreachable — `interact` returns `Ok`
on every input. -/
theorem C5_missing_camera_panics :
    (∀ (fin : Bool) (input : MultiInput),
      CameraTestScene.interact fin none input
        = InteractResult.panicked "Camera does not exist.")
  ∧ (∀ (fin : Bool) (cam : Camera) (input : MultiInput),
      ∃ c f, CameraTestScene.interact fin (some cam) input = InteractResult.ok c f) :=
  ⟨fun _ _ => rfl, fun _ _ _ => ⟨_, _, rfl⟩⟩

/-- Claim C6: any frame whose input reports the quit key `Q` as held makes
`interact` set the `should_finish` flag to `true` on that same frame, and the
`Q` handler leaves the camera untouched — a frame holding only `Q` returns the
camera exactly unchanged. -/
theorem C6_quit_key_held (fin : Bool) (cam : Camera) :
    (∀ input : MultiInput, input.held.contains Key.Q = true →
      resultFlag (CameraTestScene.interact fin (some cam) input) = some true)
  ∧ CameraTestScene.interact fin (some cam) (MultiInput.mk [] [Key.Q])
      = InteractResult.ok cam true := by
  constructor
  · intro input h
    rw [interact_flag, h]
    simp
  · rfl

/-- Witness for C6 at the concrete frame holding only `Q`. -/
theorem C6_quit_key_held_witness :
    (MultiInput.mk [] [Key.Q]).held.contains Key.Q = true
  ∧ resultFlag (CameraTestScene.interact false (some sampleCamera)
      (MultiInput.mk [] [Key.Q])) = some true :=
  ⟨by decide, (C6_quit_key_held false sampleCamera).1 (MultiInput.mk [] [Key.Q]) (by decide)⟩

/-- Claim C7: `draw` never mutates gameplay state — for every render backend,
scene state and world, after `draw` the transforms, the camera resource, the
texture dictionary and the `should_finish` flag are unchanged; only the
graphics context and the scene's private sprite renderer may change. -/
theorem C7_draw_pure_gameplay
    (backend : SpriteRenderer → GraphicsContext → World → SpriteRenderer × GraphicsContext)
    (s : CameraTestScene) (w : World) :
    (CameraTestScene.draw backend s w).2.transforms = w.transforms
  ∧ (CameraTestScene.draw backend s w).2.camera = w.camera
  ∧ (CameraTestScene.draw backend s w).2.textureDict = w.textureDict
  ∧ (CameraTestScene.draw backend s w).1.should_finish = s.should_finish :=
  ⟨rfl, rfl, rfl, rfl⟩

/-- Claim C8: for every world, `update` adds exactly 1 to the X component of
every registered transform's translation, leaves Y and Z unchanged, touches no
other world field, and returns `Ok(SceneTransition::NONE)` — never an error or
another transition. -/
theorem C8_update_increments_x (w : World) :
    CameraTestScene.update w
      = Except.ok (SceneTransition.NONE,
          { w with transforms := w.transforms.map (fun t =>
              Transform.mk
                (Vec3.mk (t.translation.x + 1) t.translation.y t.translation.z)) }) :=
  rfl

/-- Claim C9: `interact` applies identical deltas to position and target in
every key handler, so for every input and camera state the componentwise
difference between position and target is unchanged by the call, and the Z
components of position and target are never modified. -/
theorem C9_interact_delta_invariant (fin : Bool) (cam : Camera) (input : MultiInput) :
    match CameraTestScene.interact fin (some cam) input with
    | .ok c' _ => CameraDeltaInv cam c'
    | .panicked _ => True :=
  CameraDeltaInv.trans (pressedFold_delta input.pressed cam)
    (heldFold_delta input.held
      (HeldState.mk (input.pressed.foldl applyPressedKey cam) fin))

/-- Claim C10: the pressed-keys handler ignores `Q` entirely, so a `Q` that is
only pressed-this-frame (not held) leaves the `should_finish` flag exactly as
it was — only a held `Q` can set it. -/
theorem C10_pressed_q_ignored :
    (∀ cam : Camera, applyPressedKey cam Key.Q = cam)
  ∧ (∀ (fin : Bool) (cam : Camera) (input : MultiInput),
      input.held.contains Key.Q = false →
      resultFlag (CameraTestScene.interact fin (some cam) input) = some fin) := by
  constructor
  · intro cam
    rfl
  · intro fin cam input h
    rw [interact_flag, h]
    simp

/-- Witness for C10 at the concrete frame where `Q` is pressed but not held. -/
theorem C10_pressed_q_ignored_witness :
    (MultiInput.mk [Key.Q] []).held.contains Key.Q = false
  ∧ resultFlag (CameraTestScene.interact false (some sampleCamera)
      (MultiInput.mk [Key.Q] [])) = some false :=
  ⟨by decide, C10_pressed_q_ignored.2 false sampleCamera (MultiInput.mk [Key.Q] []) (by decide)⟩
